import Mathlib

/-!
# Verification of the productivity-framework metric engine

Shallow embedding of the metric computation engine of the
`productivity_framework` repository (Python sources under `src/`):

* `src/models/enums.py` — the `MetricType` enum (14 identifiers);
* `src/services/metrics_calculator.py` — `calculate_metric` dispatch,
  the z-score normalizer `_calculate_z_score_metrics`, and the
  individual metric calculators;
* `src/services/cps_calculator.py` — composite-score aggregation;
* `src/api/routes.py` — interval partitioning, interval/day validation
  and correlation gating of the `/metrics` endpoint.

Modelling conventions:

* Timestamps are integers.  In the code timestamps travel as
  `"YYYY-MM-DD HH:MM:SS"` strings (whole-second precision) whose
  lexicographic order coincides with chronological order, and are parsed
  into `datetime` values; we model an instant by its count of seconds
  since an epoch that falls on a calendar-day boundary, so that
  `datetime.date()` becomes integer division by 86400 and SQL
  `BETWEEN` becomes `≤ … ≤`.  Interval partitioning in `routes.py` /
  `cps_calculator.py` happens on `datetime`/`timedelta` values with
  microsecond resolution, so the partitioner works on microsecond
  integers (1 s = 1 000 000 µs).
* Python floats are modelled as real numbers (`ℝ`); `float('nan')`
  results of pandas (empty mean, `std` with fewer than two rows) are
  modelled by the explicit `isna` branches that `_calculate_z_score_metrics`
  itself applies (NaN ↦ 0.0).
* Python `//`, `divmod` and `timedelta.days` are floor divisions; every
  divisor in this development is positive, for which Lean's Euclidean
  `/` and `%` on `Int` agree with floor division, so `/` and `%` are
  used directly.
* Database rows (`observations` table) are a list of `Observation`
  records in table order; SQL `WHERE` clauses become `List.filter`.
-/

set_option linter.unusedVariables false

/-! ## Observations (rows of the `observations` table) -/

/-- A row of the `observations` table (see `src/models/schemas.py`:
`Observation` with fields `id, type, timestamp, value, commit_hash,
deployment_id, deployment_failure_id, ai_rework_commit`). -/
structure Observation where
  id : Int
  type : String
  timestamp : Int
  value : ℝ
  commit_hash : Option String := none
  deployment_id : Option Int := none
  deployment_failure_id : Option Int := none
  ai_rework_commit : Option Int := none

/-- A database snapshot: the rows of the `observations` table in table order. -/
abbrev DB := List Observation

/-! ## The `MetricType` enum (`src/models/enums.py`, lines 24–39)

Exactly the 14 members that appear in the Python source.  Note that the
enum has a member `AI_CODE_VOLUME` and *no* member `LINES_OF_CODE_AI`
(the latter exists only on `ObservationType`). -/

inductive MetricType where
  | SATISFACTION
  | RETENTION
  | DEPLOYMENT_FREQUENCY
  | CHANGE_FAILURE_RATE
  | MEAN_TIME_TO_RECOVER
  | LINES_OF_CODE
  | NUMBER_OF_COMMITS
  | COMMUNICATION_FREQUENCY
  | PERCEIVED_PRODUCTIVITY
  | LACK_OF_INTERRUPTIONS
  | LEAD_TIME_FOR_CHANGES
  | AI_ACCEPTANCE_RATE
  | AI_CODE_VOLUME
  | AI_REWORK_RATE
deriving DecidableEq, Repr

/-- The (name, member) pairs of the `MetricType` enum, in source order.
For this enum every member's *name* equals its string *value*. -/
def metricTypeAssoc : List (String × MetricType) :=
  [("SATISFACTION", .SATISFACTION),
   ("RETENTION", .RETENTION),
   ("DEPLOYMENT_FREQUENCY", .DEPLOYMENT_FREQUENCY),
   ("CHANGE_FAILURE_RATE", .CHANGE_FAILURE_RATE),
   ("MEAN_TIME_TO_RECOVER", .MEAN_TIME_TO_RECOVER),
   ("LINES_OF_CODE", .LINES_OF_CODE),
   ("NUMBER_OF_COMMITS", .NUMBER_OF_COMMITS),
   ("COMMUNICATION_FREQUENCY", .COMMUNICATION_FREQUENCY),
   ("PERCEIVED_PRODUCTIVITY", .PERCEIVED_PRODUCTIVITY),
   ("LACK_OF_INTERRUPTIONS", .LACK_OF_INTERRUPTIONS),
   ("LEAD_TIME_FOR_CHANGES", .LEAD_TIME_FOR_CHANGES),
   ("AI_ACCEPTANCE_RATE", .AI_ACCEPTANCE_RATE),
   ("AI_CODE_VOLUME", .AI_CODE_VOLUME),
   ("AI_REWORK_RATE", .AI_REWORK_RATE)]

/-- The closed set of metric identifiers (the values of the 14 enum members). -/
def metricTypeValues : List String := metricTypeAssoc.map (·.1)

/-- `MetricType(metric_type)`: value lookup of the Python enum constructor;
`none` models the `ValueError` raised for a string outside the closed set. -/
def MetricType.ofValue (s : String) : Option MetricType :=
  (metricTypeAssoc.find? (fun p => p.1 = s)).map (·.2)

/-- `MetricType.<name>`: attribute access on the enum class by member *name*;
`none` models the `AttributeError` raised for a non-member name.  For this
enum every member name coincides with its value, so the lookup table is the
same association list. -/
def MetricType.memberNamed (s : String) : Option MetricType :=
  (metricTypeAssoc.find? (fun p => p.1 = s)).map (·.2)

/-- The `.value` attribute of an enum member (names and values coincide for
this enum). -/
def MetricType.value : MetricType → String
  | .SATISFACTION => "SATISFACTION"
  | .RETENTION => "RETENTION"
  | .DEPLOYMENT_FREQUENCY => "DEPLOYMENT_FREQUENCY"
  | .CHANGE_FAILURE_RATE => "CHANGE_FAILURE_RATE"
  | .MEAN_TIME_TO_RECOVER => "MEAN_TIME_TO_RECOVER"
  | .LINES_OF_CODE => "LINES_OF_CODE"
  | .NUMBER_OF_COMMITS => "NUMBER_OF_COMMITS"
  | .COMMUNICATION_FREQUENCY => "COMMUNICATION_FREQUENCY"
  | .PERCEIVED_PRODUCTIVITY => "PERCEIVED_PRODUCTIVITY"
  | .LACK_OF_INTERRUPTIONS => "LACK_OF_INTERRUPTIONS"
  | .LEAD_TIME_FOR_CHANGES => "LEAD_TIME_FOR_CHANGES"
  | .AI_ACCEPTANCE_RATE => "AI_ACCEPTANCE_RATE"
  | .AI_CODE_VOLUME => "AI_CODE_VOLUME"
  | .AI_REWORK_RATE => "AI_REWORK_RATE"

/-! ## The z-score normalizer
(`src/services/metrics_calculator.py`, `_calculate_z_score_metrics`, lines 71–135) -/

/-- Result dictionary of `_calculate_z_score_metrics` / `calculate_metric`:
`mean_value`, `amount_of_observations`, `z_score`, `z_score_mean`
(= population mean), `z_score_std` (= population standard deviation),
and the optional `min_timestamp` / `max_timestamp` keys. -/
structure MetricResultD where
  mean_value : ℝ
  amount_of_observations : ℕ
  z_score : ℝ
  z_score_mean : ℝ
  z_score_std : ℝ
  min_timestamp : Option Int := none
  max_timestamp : Option Int := none


/-- `pandas.Series.mean` of a non-empty series of floats. -/
noncomputable def listMean (l : List ℝ) : ℝ := l.sum / l.length

/-- `pandas.Series.std` squared, i.e. the sample variance with `ddof = 1`:
`Σ (x − mean)² / (n − 1)` (meaningful for `n ≥ 2`). -/
noncomputable def sampleVariance (l : List ℝ) : ℝ :=
  (l.map (fun x => (x - listMean l) ^ 2)).sum / ((l.length : ℝ) - 1)

open Classical in
/-- `_calculate_z_score_metrics(timeframe_values, population_values,
min_timestamp, max_timestamp)`.

* Empty timeframe: all numeric fields `0.0`, `amount_of_observations = 0`,
  optional timestamps passed through (lines 90–102).
* Otherwise: `population_mean = population.mean()` (NaN of an empty series
  normalized to `0.0`), `population_std = population.std()` (`ddof = 1`;
  NaN of a series with fewer than two rows normalized to `0.0`), and
  `z_score = (mean_value − population_mean) / population_std` when
  `population_std > 0`, else `0.0` (lines 104–128). -/
noncomputable def calculate_z_score_metrics (timeframe_values population_values : List ℝ)
    (min_timestamp max_timestamp : Option Int) : MetricResultD :=
  if timeframe_values.isEmpty then
    { mean_value := 0, amount_of_observations := 0, z_score := 0,
      z_score_mean := 0, z_score_std := 0,
      min_timestamp := min_timestamp, max_timestamp := max_timestamp }
  else
    let mean_value := listMean timeframe_values
    let population_mean := if population_values.isEmpty then 0 else listMean population_values
    let population_std :=
      if population_values.length ≤ 1 then 0
      else Real.sqrt (sampleVariance population_values)
    let z_score :=
      if 0 < population_std then (mean_value - population_mean) / population_std else 0
    { mean_value := mean_value, amount_of_observations := timeframe_values.length,
      z_score := z_score, z_score_mean := population_mean, z_score_std := population_std,
      min_timestamp := min_timestamp, max_timestamp := max_timestamp }

/-! ## Shared query helpers (`_get_observations_df` and the inline SQL queries) -/

/-- `SELECT * FROM observations WHERE type = ?` (table order preserved). -/
def observationsDf (db : DB) (t : String) : DB :=
  db.filter (fun o => decide (o.type = t))

/-- `SELECT * FROM observations WHERE type = ? AND timestamp BETWEEN ? AND ?`
(SQL `BETWEEN` is inclusive on both ends; on normalized timestamp strings the
lexicographic comparison is chronological). -/
def observationsDfRange (db : DB) (t : String) (s e : Int) : DB :=
  db.filter (fun o => decide (o.type = t ∧ s ≤ o.timestamp ∧ o.timestamp ≤ e))

/-- Membership of a nullable SQL column in a list of ids (`x IN (…)`);
`NULL` (`none`) is never a member, like NaN in a pandas comparison. -/
def optMem (x : Option Int) (ids : List Int) : Bool :=
  match x with
  | some v => decide (v ∈ ids)
  | none => false

/-- `datetime.date()` as a day index: the epoch of the integer timestamps is
a calendar-day boundary, so the date is the floor of the timestamp over
86400 seconds. -/
def dayOf (ts : Int) : Int := ts / 86400

/-- Minimum of a list of timestamps (`Series.min()`; callers guard non-emptiness). -/
def minTs : List Int → Int
  | [] => 0
  | h :: t => t.foldl min h

/-- Maximum of a list of timestamps (`Series.max()`; callers guard non-emptiness). -/
def maxTs : List Int → Int
  | [] => 0
  | h :: t => t.foldl max h

/-- `pd.date_range(start=d0, end=d1, freq='D')` as day indices `[d0, …, d1]`. -/
def dayRange (d0 d1 : Int) : List Int :=
  (List.range (1 + (d1 - d0).toNat)).map (fun k => d0 + (k : Int))

/-- Daily event counts over `[d0, d1]`: one entry per day, days with no
events contributing an explicit `0` (the `calculate_daily_counts` helper of
`calculate_deployment_frequency` / `calculate_number_of_commits`). -/
noncomputable def dailyCounts (tss : List Int) (d0 d1 : Int) : List ℝ :=
  (dayRange d0 d1).map (fun d => ((tss.filter (fun ts => decide (dayOf ts = d))).length : ℝ))

/-- Daily value sums over `[d0, d1]`: one entry per day, days with no rows
contributing `0` (the `calculate_daily_sums` helper of
`calculate_lines_of_code` / `calculate_lines_of_code_ai`). -/
noncomputable def dailySums (rows : List (Int × ℝ)) (d0 d1 : Int) : List ℝ :=
  (dayRange d0 d1).map (fun d => ((rows.filter (fun r => decide (dayOf r.1 = d))).map (·.2)).sum)

/-- The timeframe branch of the daily-count helpers with
`use_actual_data_range=True`: empty data gives an empty series, otherwise the
series covers the span of the *actual* data and the actual min/max timestamps
are surfaced. -/
noncomputable def dailyCountSeriesTf (tss : List Int) : List ℝ × Option Int × Option Int :=
  if tss.isEmpty then ([], none, none)
  else (dailyCounts tss (dayOf (minTs tss)) (dayOf (maxTs tss)), some (minTs tss), some (maxTs tss))

/-- The timeframe branch of the daily-sum helpers with
`use_actual_data_range=True`. -/
noncomputable def dailySumSeriesTf (rows : List (Int × ℝ)) : List ℝ × Option Int × Option Int :=
  if rows.isEmpty then ([], none, none)
  else
    let tss := rows.map (·.1)
    (dailySums rows (dayOf (minTs tss)) (dayOf (maxTs tss)), some (minTs tss), some (maxTs tss))

/-! ## Direct-value calculators
(`calculate_satisfaction`, `calculate_retention`, `calculate_communication_frequency`,
`calculate_perceived_productivity`, `calculate_lack_of_interruptions`,
`calculate_ai_acceptance_rate`) -/

/-- Common shape of the six direct-value calculators: timeframe sample = raw
`value`s of the category in range, population sample = raw `value`s of all time. -/
noncomputable def directValueCalc (t : String) (db : DB) (s e : Int) : MetricResultD :=
  calculate_z_score_metrics
    ((observationsDfRange db t s e).map (·.value))
    ((observationsDf db t).map (·.value)) none none

noncomputable def calculate_satisfaction (db : DB) (s e : Int) : MetricResultD :=
  directValueCalc "SATISFACTION" db s e

noncomputable def calculate_retention (db : DB) (s e : Int) : MetricResultD :=
  directValueCalc "TEAM_SIZE_CHANGE" db s e

noncomputable def calculate_communication_frequency (db : DB) (s e : Int) : MetricResultD :=
  directValueCalc "COMMUNICATION_EVENT" db s e

noncomputable def calculate_perceived_productivity (db : DB) (s e : Int) : MetricResultD :=
  directValueCalc "PERCEIVED_PRODUCTIVITY" db s e

noncomputable def calculate_lack_of_interruptions (db : DB) (s e : Int) : MetricResultD :=
  directValueCalc "WORK_SESSION" db s e

noncomputable def calculate_ai_acceptance_rate (db : DB) (s e : Int) : MetricResultD :=
  directValueCalc "AI_SUGGESTION_RESULT" db s e

/-! ## Daily-bucketed calculators -/

/-- `calculate_deployment_frequency` (lines 189–272): daily deployment counts;
the timeframe series spans the actual data range (surfacing min/max
timestamps), the population series spans the full historical span, and an
empty population is replaced by a single `0.0` observation. -/
noncomputable def calculate_deployment_frequency (db : DB) (s e : Int) : MetricResultD :=
  let tf := (observationsDfRange db "DEPLOYMENT" s e).map (·.timestamp)
  let pop := (observationsDf db "DEPLOYMENT").map (·.timestamp)
  let r := dailyCountSeriesTf tf
  let popValues := if pop.isEmpty then [(0 : ℝ)]
    else dailyCounts pop (dayOf (minTs pop)) (dayOf (maxTs pop))
  calculate_z_score_metrics r.1 popValues r.2.1 r.2.2

/-- `calculate_number_of_commits` (lines 478–561): same algorithm as
`calculate_deployment_frequency`, over `COMMIT` observations. -/
noncomputable def calculate_number_of_commits (db : DB) (s e : Int) : MetricResultD :=
  let tf := (observationsDfRange db "COMMIT" s e).map (·.timestamp)
  let pop := (observationsDf db "COMMIT").map (·.timestamp)
  let r := dailyCountSeriesTf tf
  let popValues := if pop.isEmpty then [(0 : ℝ)]
    else dailyCounts pop (dayOf (minTs pop)) (dayOf (maxTs pop))
  calculate_z_score_metrics r.1 popValues r.2.1 r.2.2

/-- `calculate_lines_of_code` (lines 406–475): daily sums of `value` over
`LINES_OF_CODE` observations. -/
noncomputable def calculate_lines_of_code (db : DB) (s e : Int) : MetricResultD :=
  let tf := (observationsDfRange db "LINES_OF_CODE" s e).map (fun o => (o.timestamp, o.value))
  let pop := (observationsDf db "LINES_OF_CODE").map (fun o => (o.timestamp, o.value))
  let r := dailySumSeriesTf tf
  let popValues := if pop.isEmpty then [(0 : ℝ)]
    else dailySums pop (dayOf (minTs (pop.map (·.1)))) (dayOf (maxTs (pop.map (·.1))))
  calculate_z_score_metrics r.1 popValues r.2.1 r.2.2

/-- `calculate_lines_of_code_ai` (lines 673–742): daily sums of `value` over
`LINES_OF_CODE_AI` observations. -/
noncomputable def calculate_lines_of_code_ai (db : DB) (s e : Int) : MetricResultD :=
  let tf := (observationsDfRange db "LINES_OF_CODE_AI" s e).map (fun o => (o.timestamp, o.value))
  let pop := (observationsDf db "LINES_OF_CODE_AI").map (fun o => (o.timestamp, o.value))
  let r := dailySumSeriesTf tf
  let popValues := if pop.isEmpty then [(0 : ℝ)]
    else dailySums pop (dayOf (minTs (pop.map (·.1)))) (dayOf (maxTs (pop.map (·.1))))
  calculate_z_score_metrics r.1 popValues r.2.1 r.2.2

/-! ## Paired-event indicator calculators -/

/-- The `calculate_failure_indicators` helper of `calculate_change_failure_rate`:
for each deployment `1.0` if some `DEPLOYMENT_FAILURE` references it, else `0.0`. -/
noncomputable def failureIndicators (deployments failures : DB) : List ℝ :=
  deployments.map (fun d => if failures.any (fun f => decide (f.deployment_id = some d.id)) then (1 : ℝ) else 0)

/-- `calculate_change_failure_rate` (lines 275–327): the deployments in the
timeframe are the resolving observations; failures are matched by
`deployment_id` regardless of their own timestamp. -/
noncomputable def calculate_change_failure_rate (db : DB) (s e : Int) : MetricResultD :=
  calculate_z_score_metrics
    (failureIndicators (observationsDfRange db "DEPLOYMENT" s e) (observationsDf db "DEPLOYMENT_FAILURE"))
    (failureIndicators (observationsDf db "DEPLOYMENT") (observationsDf db "DEPLOYMENT_FAILURE"))
    none none

/-- The `calculate_rework_indicators` helper of `calculate_ai_rework_rate`:
`ai_rework_commit.fillna(0).astype(float)`. -/
noncomputable def reworkIndicators (commits : DB) : List ℝ :=
  commits.map (fun c => ((c.ai_rework_commit.getD 0 : Int) : ℝ))

/-- `calculate_ai_rework_rate` (lines 745–778). -/
noncomputable def calculate_ai_rework_rate (db : DB) (s e : Int) : MetricResultD :=
  calculate_z_score_metrics
    (reworkIndicators (observationsDfRange db "COMMIT" s e))
    (reworkIndicators (observationsDf db "COMMIT"))
    none none

/-! ## Paired-event duration calculators -/

/-- `calculate_mean_time_to_recover`: the fixes in the timeframe (resolving
observations), `SELECT … WHERE type = 'DEPLOYMENT_FAILURE_FIX' AND timestamp
BETWEEN ? AND ?` (lines 340–345). -/
def mttrFixesTf (db : DB) (s e : Int) : DB :=
  observationsDfRange db "DEPLOYMENT_FAILURE_FIX" s e

/-- `fixes_tf['deployment_failure_id'].dropna().unique().tolist()` (line 349). -/
def mttrFailureIds (fixes : DB) : List Int :=
  (fixes.filterMap (·.deployment_failure_id)).dedup

/-- The failures related to the timeframe fixes, fetched *without any
timestamp restriction*: `SELECT … WHERE type = 'DEPLOYMENT_FAILURE' AND
(deployment_failure_id IN (…) OR id IN (…))`; an empty fix set or an empty
id list short-circuits to an empty frame (lines 347–363). -/
def mttrFailuresTf (db : DB) (s e : Int) : DB :=
  let fixes := mttrFixesTf db s e
  let ids := mttrFailureIds fixes
  if fixes.isEmpty then []
  else if ids.isEmpty then []
  else db.filter (fun o =>
    decide (o.type = "DEPLOYMENT_FAILURE") &&
      (optMem o.deployment_failure_id ids || decide (o.id ∈ ids)))

/-- The failure matched to one fix inside `calculate_recovery_times`
(lines 383–389): the first failure whose `deployment_failure_id` or `id`
equals the fix's `deployment_failure_id`; a fix with a `NULL` reference
matches nothing (a pandas NaN comparison is always false). -/
def matchingFailure (failures : DB) (fix : Observation) : Option Observation :=
  match fix.deployment_failure_id with
  | none => none
  | some fid =>
    failures.find? (fun f => decide (f.deployment_failure_id = some fid) || decide (f.id = fid))

/-- `calculate_recovery_times(failures_df, fixes_df)` (lines 379–397):
for each fix with a located failure, `(fix_time − failure_time)` in minutes. -/
noncomputable def recoveryTimes (failures fixes : DB) : List ℝ :=
  fixes.filterMap (fun fix =>
    (matchingFailure failures fix).map (fun f => ((fix.timestamp - f.timestamp : Int) : ℝ) / 60))

/-- The timeframe sample of `calculate_mean_time_to_recover`. -/
noncomputable def mttrTimeframeSample (db : DB) (s e : Int) : List ℝ :=
  recoveryTimes (mttrFailuresTf db s e) (mttrFixesTf db s e)

/-- The population sample of `calculate_mean_time_to_recover`: all failures
against all fixes (lines 365–375, 400). -/
noncomputable def mttrPopulationSample (db : DB) : List ℝ :=
  recoveryTimes (observationsDf db "DEPLOYMENT_FAILURE") (observationsDf db "DEPLOYMENT_FAILURE_FIX")

/-- `calculate_mean_time_to_recover` (lines 330–403). -/
noncomputable def calculate_mean_time_to_recover (db : DB) (s e : Int) : MetricResultD :=
  calculate_z_score_metrics (mttrTimeframeSample db s e) (mttrPopulationSample db) none none

/-- `calculate_lead_time_for_changes`: deployments in the timeframe
(resolving observations, lines 601–606). -/
def leadDeploymentsTf (db : DB) (s e : Int) : DB :=
  observationsDfRange db "DEPLOYMENT" s e

/-- Commits referencing the timeframe deployments, fetched *without any
timestamp restriction*: `SELECT … WHERE type = 'COMMIT' AND deployment_id IN
(…)`; an empty deployment set short-circuits to an empty frame
(lines 608–619). -/
def leadCommitsTf (db : DB) (s e : Int) : DB :=
  let deployments := leadDeploymentsTf db s e
  if deployments.isEmpty then []
  else db.filter (fun o =>
    decide (o.type = "COMMIT") && optMem o.deployment_id (deployments.map (·.id)))

/-- `calculate_lead_times(commits_df, deployments_df)` (lines 635–655):
map each commit to its referenced deployment's timestamp (`id` lookup,
first match; ids are table primary keys), drop commits without a match,
and return `(deployment_time − commit_time)` in minutes. -/
noncomputable def leadTimes (commits deployments : DB) : List ℝ :=
  if commits.isEmpty then []
  else if deployments.isEmpty then []
  else commits.filterMap (fun c =>
    c.deployment_id.bind (fun did =>
      (deployments.find? (fun d => decide (d.id = did))).map
        (fun d => ((d.timestamp - c.timestamp : Int) : ℝ) / 60)))

/-- The timeframe sample of `calculate_lead_time_for_changes`. -/
noncomputable def leadTimeframeSample (db : DB) (s e : Int) : List ℝ :=
  leadTimes (leadCommitsTf db s e) (leadDeploymentsTf db s e)

/-- The population sample of `calculate_lead_time_for_changes`: all commits
with a non-`NULL` `deployment_id` against all deployments (lines 621–631, 658). -/
noncomputable def leadPopulationSample (db : DB) : List ℝ :=
  leadTimes
    (db.filter (fun o => decide (o.type = "COMMIT" ∧ o.deployment_id ≠ none)))
    (observationsDf db "DEPLOYMENT")

/-- `calculate_lead_time_for_changes` (lines 591–661). -/
noncomputable def calculate_lead_time_for_changes (db : DB) (s e : Int) : MetricResultD :=
  calculate_z_score_metrics (leadTimeframeSample db s e) (leadPopulationSample db) none none

/-! ## `calculate_metric` — registry dispatch as written in the source
(`src/services/metrics_calculator.py`, lines 18–68)

The body of `calculate_metric` first validates the identifier with
`MetricType(metric_type)` (`ValueError` outside the closed set), then builds
the `calculators` dict literal whose keys are attribute accesses on
`MetricType`.  The 13th key of that literal is `MetricType.LINES_OF_CODE_AI`
— a member that does **not** exist on `MetricType` in `src/models/enums.py`
(the enum has `AI_CODE_VOLUME` instead) — so evaluating the dict literal
raises `AttributeError` before any calculator can run; the enum also has no
classmethod `is_inverted_metric`, so line 65 would raise `AttributeError` as
well if it were ever reached. -/

/-- Errors that `calculate_metric` can raise. -/
inductive CalcError where
  | invalidMetric
  | attributeError
  | keyError
deriving DecidableEq, Repr

/-- A calculator strategy: a function of the database and the window. -/
abbrev Calculator := DB → Int → Int → MetricResultD

/-- The entries of the `calculators` dict literal in source order
(lines 44–59): the member *names* used as keys, paired with the calculator
functions.  The 13th key name is `LINES_OF_CODE_AI`. -/
noncomputable def calculatorEntries : List (String × Calculator) :=
  [("SATISFACTION", calculate_satisfaction),
   ("RETENTION", calculate_retention),
   ("DEPLOYMENT_FREQUENCY", calculate_deployment_frequency),
   ("CHANGE_FAILURE_RATE", calculate_change_failure_rate),
   ("MEAN_TIME_TO_RECOVER", calculate_mean_time_to_recover),
   ("LINES_OF_CODE", calculate_lines_of_code),
   ("NUMBER_OF_COMMITS", calculate_number_of_commits),
   ("COMMUNICATION_FREQUENCY", calculate_communication_frequency),
   ("PERCEIVED_PRODUCTIVITY", calculate_perceived_productivity),
   ("LACK_OF_INTERRUPTIONS", calculate_lack_of_interruptions),
   ("LEAD_TIME_FOR_CHANGES", calculate_lead_time_for_changes),
   ("AI_ACCEPTANCE_RATE", calculate_ai_acceptance_rate),
   ("LINES_OF_CODE_AI", calculate_lines_of_code_ai),
   ("AI_REWORK_RATE", calculate_ai_rework_rate)]

/-- Evaluation of the dict literal: each key is an attribute access
`MetricType.<name>`, resolved in order; the first unresolvable name aborts
the construction (Python raises `AttributeError`). -/
noncomputable def buildCalculators : List (String × Calculator) → Option (List (MetricType × Calculator))
  | [] => some []
  | (n, f) :: rest =>
    match MetricType.memberNamed n with
    | none => none
    | some m =>
      match buildCalculators rest with
      | none => none
      | some t => some ((m, f) :: t)

/-- `calculators[metric_enum]` (line 61). -/
def lookupCalculator (tbl : List (MetricType × Calculator)) (m : MetricType) : Option Calculator :=
  (tbl.find? (fun p => p.1 = m)).map (·.2)

/-- `calculate_metric(metric_type, start_time, end_time)` exactly as the
source has it: validate, build the dispatch dict, look up the calculator,
run it, then consult `MetricType.is_inverted_metric` — an attribute that the
enum does not define, modelled by an unconditional `AttributeError` at that
point. -/
noncomputable def calculate_metric (db : DB) (metric_type : String) (s e : Int) :
    Except CalcError MetricResultD :=
  match MetricType.ofValue metric_type with
  | none => .error .invalidMetric
  | some metric_enum =>
    match buildCalculators calculatorEntries with
    | none => .error .attributeError
    | some calculators =>
      match lookupCalculator calculators metric_enum with
      | none => .error .keyError
      | some calculator =>
        let result := calculator db s e
        -- line 65: `MetricType.is_inverted_metric(metric_type)` — the enum
        -- class has no such attribute, so this raises unconditionally.
        .error .attributeError

/-! ## The spec-modelled registry

Two identifiers referenced by the engine are missing from the sources:
the `MetricType.is_inverted_metric` predicate (only its call site,
`metrics_calculator.py` line 65, exists) and a calculator for the enum's
`AI_CODE_VOLUME` member (the spec's "ratio of matched events" family).
They are modelled here from the spec (§4.1, §4.2.5), and the dispatch of
§4.1 — "a pure lookup table from metric identifier to calculator function"
over the closed set — is realised as a total match on the enum, keeping
the 13 calculator functions defined above verbatim. -/

/-- Modelled from the spec: `MetricType.is_inverted_metric`, the polarity
flag of §4.1 — true exactly for the metrics "where a lower raw value is
preferable (e.g., recovery time, lead time, rework rate)". -/
def is_inverted_metric : MetricType → Bool
  | .MEAN_TIME_TO_RECOVER => true
  | .LEAD_TIME_FOR_CHANGES => true
  | .AI_REWORK_RATE => true
  | _ => false

/-- Modelled from the spec: the missing `AI_CODE_VOLUME` calculator, §4.2.5
"ratio-of-matched-events: join lines-of-code and AI-lines-of-code events
that share the same timestamp; sample = per-match ratio `ai_value /
total_value`; unmatched events produce no sample entry", with the timeframe
sample drawn from events in range and the population from all history. -/
noncomputable def calculate_ai_code_volume (db : DB) (s e : Int) : MetricResultD :=
  let ratios := fun (locs ais : DB) =>
    locs.filterMap (fun o =>
      (ais.find? (fun a => decide (a.timestamp = o.timestamp))).map
        (fun a => a.value / o.value))
  calculate_z_score_metrics
    (ratios (observationsDfRange db "LINES_OF_CODE" s e) (observationsDfRange db "LINES_OF_CODE_AI" s e))
    (ratios (observationsDf db "LINES_OF_CODE") (observationsDf db "LINES_OF_CODE_AI"))
    none none

/-- Modelled from the spec (§4.1): the registry's pure lookup table from
metric identifier to calculator strategy, total on the closed set. -/
noncomputable def dispatchSpec : MetricType → Calculator
  | .SATISFACTION => calculate_satisfaction
  | .RETENTION => calculate_retention
  | .DEPLOYMENT_FREQUENCY => calculate_deployment_frequency
  | .CHANGE_FAILURE_RATE => calculate_change_failure_rate
  | .MEAN_TIME_TO_RECOVER => calculate_mean_time_to_recover
  | .LINES_OF_CODE => calculate_lines_of_code
  | .NUMBER_OF_COMMITS => calculate_number_of_commits
  | .COMMUNICATION_FREQUENCY => calculate_communication_frequency
  | .PERCEIVED_PRODUCTIVITY => calculate_perceived_productivity
  | .LACK_OF_INTERRUPTIONS => calculate_lack_of_interruptions
  | .LEAD_TIME_FOR_CHANGES => calculate_lead_time_for_changes
  | .AI_ACCEPTANCE_RATE => calculate_ai_acceptance_rate
  | .AI_CODE_VOLUME => calculate_ai_code_volume
  | .AI_REWORK_RATE => calculate_ai_rework_rate

/-- `calculate_metric` with the two missing identifiers spec-modelled:
validate the identifier, run the calculator from the lookup table, and
negate `z_score` — once, after normalization — exactly for the inverted
metrics (`metrics_calculator.py` lines 61–68 with `is_inverted_metric`
and the `AI_CODE_VOLUME` entry modelled from the spec). -/
noncomputable def calcMetricSpec (db : DB) (metric_type : String) (s e : Int) :
    Except CalcError MetricResultD :=
  match MetricType.ofValue metric_type with
  | none => .error .invalidMetric
  | some metric_enum =>
    let result := dispatchSpec metric_enum db s e
    if is_inverted_metric metric_enum then
      .ok { result with z_score := -result.z_score }
    else
      .ok result

/-! ## Interval partitioning
(`src/api/routes.py` lines 310–327 and `src/services/cps_calculator.py`
lines 114–132; the two loops are verbatim copies of each other) -/

/-- CPython's `timedelta._divide_and_round(a, b)` for a positive divisor
`b`, the rounding behind `total_duration / intervals`: floor `divmod`,
then round the quotient to the nearest integer, ties to the even quotient. -/
def pyDivRound (a b : Int) : Int :=
  let q := a / b
  let r := a % b
  if 2 * r > b ∨ (2 * r = b ∧ q % 2 = 1) then q + 1 else q

/-- The interval bounds produced by the partitioning loop, on microsecond
timestamps: `interval_duration = total_duration / intervals` (microsecond
rounding of `timedelta` division); interval `i` (0-based) runs from
`start + interval_duration * i` to `start + interval_duration * (i+1)`
with one second subtracted, except that the last interval's end is forced
to the exact requested end.  Each triple is
`(interval_number (1-based), interval start µs, interval end µs)`. -/
def intervalBounds (startUs endUs : Int) (n : ℕ) : List (ℕ × Int × Int) :=
  let step := pyDivRound (endUs - startUs) n
  (List.range n).map (fun i =>
    (i + 1, startUs + step * (i : Int),
      if i = n - 1 then endUs else startUs + step * ((i : Int) + 1) - 1000000))

/-- `total_days = (end_dt - start_dt).days + 1` (`routes.py` lines 300–301 and
415–417): the floor of the requested duration in whole 24-hour days, plus one. -/
def totalDays (s e : Int) : Int := (e - s) / 86400 + 1

/-- The `TooManyIntervals` validation (`routes.py` lines 304–308 and 420–424):
the request is rejected iff `intervals > total_days`. -/
def intervalsRejected (s e : Int) (n : ℕ) : Bool := decide ((n : Int) > totalDays s e)

/-- Written from the claim's/spec's words, *not* from the source (for
comparison with `totalDays`): "whole calendar days spanned by `[start, end]`,
inclusive of both endpoints" — the number of distinct calendar days the
window touches. -/
def specCalendarDaysSpanned (s e : Int) : Int := e / 86400 - s / 86400 + 1

/-! ## Composite Productivity Score (`src/services/cps_calculator.py`) -/

/-- The metric evaluator consumed by `cps_calculator` and `routes`
(`services.metrics_calculator.calculate_metric` with the database fixed),
abstracted as a total function of the identifier and the window. -/
abbrev MetricEval := String → Int → Int → MetricResultD

/-- One entry of the per-metric breakdown of a CPS response. -/
structure CPSMetricD where
  metric_type : String
  weight : ℝ
  z_score : ℝ
  z_score_weighted : ℝ
  mean_value : ℝ
  amount_of_observations : ℕ
  z_score_mean : ℝ
  z_score_std : ℝ
  min_timestamp : Option Int
  max_timestamp : Option Int

/-- Result of `calculate_cps`: the scalar `cps` and the per-metric breakdown. -/
structure CPSResultD where
  cps : ℝ
  metrics : List CPSMetricD

/-- The per-metric breakdown rows built by both CPS functions
(lines 45–75 and 138–171): `z_score` from the metric result,
`z_score_weighted = weight * z_score`. -/
noncomputable def cpsMetricRows (ev : MetricEval) (s e : Int)
    (metrics : List (String × ℝ)) : List CPSMetricD :=
  metrics.map (fun p =>
    let result := ev p.1 s e
    { metric_type := p.1, weight := p.2, z_score := result.z_score,
      z_score_weighted := p.2 * result.z_score,
      mean_value := result.mean_value,
      amount_of_observations := result.amount_of_observations,
      z_score_mean := result.z_score_mean, z_score_std := result.z_score_std,
      min_timestamp := result.min_timestamp, max_timestamp := result.max_timestamp })

/-- `calculate_cps(start_time, end_time, metrics)` (lines 12–80):
`cps_total` starts at `0.0` and accumulates `weight * z_score` over the
metric configurations in order. -/
noncomputable def calculate_cps (ev : MetricEval) (s e : Int)
    (metrics : List (String × ℝ)) : CPSResultD :=
  let rows := cpsMetricRows ev s e metrics
  { cps := rows.foldl (fun acc r => acc + r.z_score_weighted) 0, metrics := rows }

/-- One interval of a `calculate_cps_with_intervals` response. -/
structure CPSIntervalD where
  interval_number : ℕ
  start_us : Int
  end_us : Int
  cps : ℝ
  metrics : List CPSMetricD

/-- `calculate_cps_with_intervals(start_time, end_time, intervals, metrics)`
(lines 83–181): partition the window, and per interval accumulate
`weight * z_score` over the metrics, querying each metric on the interval's
bounds truncated to whole seconds (`strftime("%Y-%m-%d %H:%M:%S")`). -/
noncomputable def calculate_cps_with_intervals (ev : MetricEval) (s e : Int)
    (n : ℕ) (metrics : List (String × ℝ)) : List CPSIntervalD :=
  (intervalBounds (s * 1000000) (e * 1000000) n).map (fun b =>
    let rows := cpsMetricRows ev (b.2.1 / 1000000) (b.2.2 / 1000000) metrics
    { interval_number := b.1, start_us := b.2.1, end_us := b.2.2,
      cps := rows.foldl (fun acc r => acc + r.z_score_weighted) 0,
      metrics := rows })

/-! ## Correlations and the `/metrics` route (`src/api/routes.py`) -/

/-- One interval of a `/metrics` response: the interval bounds and one
tagged `MetricResult` per requested metric. -/
structure IntervalResultD where
  interval_number : ℕ
  start_us : Int
  end_us : Int
  metrics : List (String × MetricResultD)

/-- One element of the `correlations` array (lines 58–93). -/
structure CorrelationD where
  metric_1 : String
  metric_2 : String
  pearson_coefficient : ℝ
  p_value : ℝ
  sample_size : ℕ
  interpretation : String

/-- `np.std` (`ddof = 0`): the population standard deviation used by the
zero-variance check (line 69). -/
noncomputable def npStd (l : List ℝ) : ℝ :=
  Real.sqrt ((l.map (fun x => (x - listMean l) ^ 2)).sum / l.length)

/-- The Pearson correlation coefficient computed by `scipy.stats.pearsonr`. -/
noncomputable def pearsonR (xs ys : List ℝ) : ℝ :=
  let mx := listMean xs
  let my := listMean ys
  ((xs.zip ys).map (fun p => (p.1 - mx) * (p.2 - my))).sum /
    Real.sqrt ((xs.map (fun x => (x - mx) ^ 2)).sum * (ys.map (fun y => (y - my) ^ 2)).sum)

/-- Python's `round(x, 4)` (ties of the 4th decimal follow Mathlib's `round`
here; the float half-even tie case is measure-zero and not exercised by any
claim). -/
noncomputable def pyRound4 (x : ℝ) : ℝ := ((round (x * 10000) : ℤ) : ℝ) / 10000

open Classical in
/-- `interpret_correlation(r, p_value)` (lines 98–140). -/
noncomputable def interpret_correlation (r p_value : ℝ) : String :=
  let strengthCap :=
    if |r| < 0.1 then "Negligible"
    else if |r| < 0.3 then "Weak"
    else if |r| < 0.5 then "Moderate"
    else if |r| < 0.7 then "Strong"
    else "Very strong"
  let direction := if 0 < r then "positive" else if r < 0 then "negative" else "no"
  let significance :=
    if p_value < 0.01 then "highly significant (p < 0.01)"
    else if p_value < 0.05 then "significant (p < 0.05)"
    else if p_value < 0.1 then "marginally significant (p < 0.1)"
    else "not statistically significant"
  strengthCap ++ " " ++ direction ++ " correlation, " ++ significance

/-- The ordered metric pairs of the nested loops
`for i, metric_1 in enumerate(...); for metric_2 in metric_type_list[i+1:]`. -/
def orderedPairs : List String → List (String × String)
  | [] => []
  | m :: rest => rest.map (fun m2 => (m, m2)) ++ orderedPairs rest

/-- The per-interval `mean_value` series of one metric (lines 34–42: first
matching metric entry of each interval). -/
noncomputable def metricSeries (ivs : List IntervalResultD) (m : String) : List ℝ :=
  ivs.filterMap (fun iv =>
    (iv.metrics.find? (fun q => decide (q.1 = m))).map (fun q => q.2.mean_value))

open Classical in
/-- `calculate_correlations(interval_results, metric_type_list)`
(lines 18–95).  `pf` abstracts the two-sided p-value of
`scipy.stats.pearsonr` (a special-function computation external to this
embedding).  The mean values in this model are genuine reals, never NaN, so
the NaN validity mask keeps every interval pair and the sample size is the
number of zipped interval pairs. -/
noncomputable def calculate_correlations (pf : ℝ → ℕ → ℝ)
    (interval_results : List IntervalResultD) (metric_type_list : List String) :
    List CorrelationD :=
  (orderedPairs metric_type_list).map (fun p =>
    let v1 := metricSeries interval_results p.1
    let v2 := metricSeries interval_results p.2
    let sample_size := (v1.zip v2).length
    if sample_size < 3 then
      { metric_1 := p.1, metric_2 := p.2, pearson_coefficient := 0, p_value := 1,
        sample_size := sample_size,
        interpretation := "Insufficient data (need at least 3 intervals with observations)" }
    else if npStd v1 = 0 ∨ npStd v2 = 0 then
      { metric_1 := p.1, metric_2 := p.2, pearson_coefficient := 0, p_value := 1,
        sample_size := sample_size,
        interpretation := "Cannot compute correlation: one or both metrics have zero variance" }
    else
      let r := pearsonR v1 v2
      let pv := pf r sample_size
      { metric_1 := p.1, metric_2 := p.2, pearson_coefficient := pyRound4 r,
        p_value := pyRound4 pv, sample_size := sample_size,
        interpretation := interpret_correlation r pv })

/-- Validation errors of the `/metrics` route. -/
inductive RouteError where
  | invalidMetric
  | tooManyIntervals
deriving DecidableEq, Repr

/-- A `/metrics` response: interval results plus the optional correlations. -/
structure MetricsResponseD where
  intervals : List IntervalResultD
  correlations : Option (List CorrelationD)

/-- `get_metrics(metric_types, start_time, end_time, intervals)`
(`routes.py` lines 246–354): validate the metric identifiers against the
closed set, validate `intervals` against the day span, partition the window,
evaluate every metric on every interval (bounds truncated to whole seconds
by `strftime`), and attach correlations exactly when more than one metric
*and* more than one interval were requested.  `ev` is the metric
evaluator (see `MetricEval`); `pf` the external p-value routine. -/
noncomputable def get_metrics (pf : ℝ → ℕ → ℝ) (ev : MetricEval)
    (metric_type_list : List String) (s e : Int) (n : ℕ) :
    Except RouteError MetricsResponseD :=
  if (metric_type_list.filter (fun mt => decide (mt ∉ metricTypeValues))).isEmpty then
    if (n : Int) > totalDays s e then .error .tooManyIntervals
    else
      let interval_results := (intervalBounds (s * 1000000) (e * 1000000) n).map (fun b =>
        { interval_number := b.1, start_us := b.2.1, end_us := b.2.2,
          metrics := metric_type_list.map
            (fun mt => (mt, ev mt (b.2.1 / 1000000) (b.2.2 / 1000000))) : IntervalResultD })
      let correlations :=
        if 1 < metric_type_list.length ∧ 1 < n then
          some (calculate_correlations pf interval_results metric_type_list)
        else none
      .ok { intervals := interval_results, correlations := correlations }
  else .error .invalidMetric

/-! ## General lemmas -/

theorem find?_filter_eq_find? {α : Type} (l : List α) (p q : α → Bool)
    (h : ∀ a, q a = true → p a = true) : (l.filter p).find? q = l.find? q := by
  induction l with
  | nil => rfl
  | cons a t ih =>
    by_cases hq : q a = true
    · have hp := h a hq
      simp [List.filter_cons, hp, List.find?_cons, hq]
    · by_cases hp : p a = true <;>
        simp [List.filter_cons, hp, List.find?_cons, hq, ih]

theorem filterMap_congr_mem {α β : Type} {l : List α} {f g : α → Option β}
    (h : ∀ a ∈ l, f a = g a) : l.filterMap f = l.filterMap g := by
  induction l with
  | nil => rfl
  | cons a t ih =>
    have ha := h a (by simp)
    have ht : ∀ a ∈ t, f a = g a := fun x hx => h x (by simp [hx])
    simp [List.filterMap_cons, ha, ih ht]

theorem filterMap_filter_of_none {α β : Type} {l : List α} {p : α → Bool}
    {g : α → Option β} (h : ∀ a ∈ l, p a = false → g a = none) :
    (l.filter p).filterMap g = l.filterMap g := by
  induction l with
  | nil => rfl
  | cons a t ih =>
    have ht : ∀ x ∈ t, p x = false → g x = none := fun x hx => h x (by simp [hx])
    by_cases hp : p a = true
    · simp [List.filter_cons, hp, List.filterMap_cons, ih ht]
    · have hg := h a (by simp) (by simpa using hp)
      simp [List.filter_cons, hp, List.filterMap_cons, hg, ih ht]

theorem foldl_add_weighted (l : List CPSMetricD) (a : ℝ) :
    l.foldl (fun acc r => acc + r.z_score_weighted) a
      = a + (l.map (fun r => r.z_score_weighted)).sum := by
  induction l generalizing a with
  | nil => simp
  | cons x t ih => simp [List.foldl_cons, ih, add_assoc]

/-! ## Facts about the enum embedding -/

theorem MetricType.ofValue_value (m : MetricType) : MetricType.ofValue m.value = some m := by
  cases m <;> rfl

theorem MetricType.ofValue_eq_none_of_not_mem {mt : String} (h : mt ∉ metricTypeValues) :
    MetricType.ofValue mt = none := by
  unfold MetricType.ofValue
  rw [List.find?_eq_none.mpr]
  · rfl
  · intro p hp
    simp only [decide_eq_true_eq]
    intro heq
    exact h (heq ▸ List.mem_map_of_mem (·.1) hp)

theorem MetricType.ofValue_isSome_of_mem {mt : String} (h : mt ∈ metricTypeValues) :
    ∃ m, MetricType.ofValue mt = some m := by
  obtain ⟨p, hp, hval⟩ := List.mem_map.mp h
  have : ∃ x ∈ metricTypeAssoc, (fun q => decide (q.1 = mt)) x = true :=
    ⟨p, hp, by simp [hval]⟩
  obtain ⟨q, hq⟩ := List.find?_isSome.mpr this |> Option.isSome_iff_exists.mp
  exact ⟨q.2, by simp [MetricType.ofValue, hq]⟩

/-- Building the `calculators` dict literal fails: its 13th key,
`MetricType.LINES_OF_CODE_AI`, names no member of the enum. -/
theorem buildCalculators_entries_eq_none : buildCalculators calculatorEntries = none := by
  rfl

/-! ## Claim C6 -/

/-- C6: for every population sample and optional timestamps, an empty
timeframe sample makes the normalizer return a `MetricResult` with
`observation_count = 0` and all numeric fields (`mean_value`, `z_score`,
`population_mean`, `population_std`) equal to zero; the empty case is total
(never fails) and performs no normalization — the result is the same
constant record whatever the population sample is. -/
theorem C6_empty_timeframe_all_zero (pop : List ℝ) (mn mx : Option Int) :
    calculate_z_score_metrics [] pop mn mx =
      { mean_value := 0, amount_of_observations := 0, z_score := 0,
        z_score_mean := 0, z_score_std := 0,
        min_timestamp := mn, max_timestamp := mx } := by
  rfl

/-! ## Claim C1 -/

/-- C1 (code bug): `calculate_metric` never returns a `MetricResult`.
Validation does reject exactly the identifiers outside the closed 14-value
set (`invalidMetric`), but for *every* identifier inside the set — including
`AI_CODE_VOLUME` — evaluating the `calculators` dict literal raises
`AttributeError`, because its 13th key `MetricType.LINES_OF_CODE_AI` names
no member of `MetricType`; so the dispatch promised by the claim never
happens. -/
theorem C1_dispatch_table_attribute_error : ∀ (db : DB) (s e : Int),
    calculate_metric db "AI_CODE_VOLUME" s e = .error .attributeError
    ∧ calculate_metric db "SATISFACTION" s e = .error .attributeError
    ∧ calculate_metric db "NOT_A_METRIC" s e = .error .invalidMetric
    ∧ ∀ mt : String,
        calculate_metric db mt s e = .error .invalidMetric
        ∨ calculate_metric db mt s e = .error .attributeError := by
  intro db s e
  have hgen : ∀ mt : String,
      calculate_metric db mt s e = .error .invalidMetric
      ∨ calculate_metric db mt s e = .error .attributeError := by
    intro mt
    cases h : MetricType.ofValue mt with
    | none => exact Or.inl (by simp [calculate_metric, h])
    | some m =>
      exact Or.inr (by simp [calculate_metric, h, buildCalculators_entries_eq_none])
  refine ⟨?_, ?_, ?_, hgen⟩
  · simp [calculate_metric,
      show MetricType.ofValue "AI_CODE_VOLUME" = some .AI_CODE_VOLUME from rfl,
      buildCalculators_entries_eq_none]
  · simp [calculate_metric,
      show MetricType.ofValue "SATISFACTION" = some .SATISFACTION from rfl,
      buildCalculators_entries_eq_none]
  · simp [calculate_metric,
      show MetricType.ofValue "NOT_A_METRIC" = none from rfl]

/-! ## Claim C5 -/

/-- C5 counterexample: take `start` = 23:00:00 of day 0 (82 800 s) and
`end` = 01:00:00 of day 2 (176 400 s).  The window touches three calendar
days (days 0, 1, 2), so by the claim `intervals = 3` does *not* exceed the
allowance and must be accepted — yet the code computes
`total_days = (end−start).days + 1 = 1 + 1 = 2` and rejects the request
with `TooManyIntervals`. -/
theorem C5_counterexample_calendar_days :
    intervalsRejected 82800 176400 3 = true
    ∧ (3 : Int) ≤ specCalendarDaysSpanned 82800 176400 :=
  ⟨by decide, by decide⟩

/-- C5 amended: the request is rejected with `TooManyIntervals` exactly when
`intervals` exceeds `(end − start).days + 1` — the floor of the requested
*duration* in whole 24-hour days, plus one — which is at most (but not
always equal to) the count of calendar days the window touches.  The
claim's one-sided consequences survive: exceeding the calendar-day span
also rejects, and `intervals = 3` over a window touching fewer than 3
calendar days always fails. -/
theorem C5_amended_day_span_rule (s e : Int) (n : ℕ) :
    (intervalsRejected s e n = true ↔ (n : Int) > (e - s) / 86400 + 1)
    ∧ ((n : Int) > specCalendarDaysSpanned s e → intervalsRejected s e n = true)
    ∧ (specCalendarDaysSpanned s e < 3 → intervalsRejected s e 3 = true) := by
  refine ⟨?_, ?_, ?_⟩
  · simp [intervalsRejected, totalDays]
  · intro h
    simp only [intervalsRejected, totalDays, decide_eq_true_eq]
    simp only [specCalendarDaysSpanned] at h
    omega
  · intro h
    simp only [intervalsRejected, totalDays, decide_eq_true_eq]
    simp only [specCalendarDaysSpanned] at h
    omega

/-- Witness for the amended C5: a one-day window (day 0, 00:00:00 to
day 1, 00:00:00 — two calendar days touched) with `intervals = 3` is
rejected. -/
theorem C5_amended_witness : intervalsRejected 0 86400 3 = true :=
  (C5_amended_day_span_rule 0 86400 3).2.2 (by decide)

/-! ## Claim C10 -/

/-- C10: a `/metrics` request whose end instant is strictly before its start
is rejected before any metric computation, whatever `intervals ≥ 1` is:
the result is a validation error; if the metric identifiers are valid the
diagnostic is precisely `TooManyIntervals` (the day-span check fires because
`total_days = (end−start).days + 1 ≤ 0 < intervals`); and the outcome is
independent of the metric evaluator and of the p-value routine — no metric
computation influences it. -/
theorem C10_end_before_start_rejected (pf pf2 : ℝ → ℕ → ℝ) (ev ev2 : MetricEval)
    (mts : List String) (s e : Int) (n : ℕ) (h1 : e < s) (h2 : 1 ≤ n) :
    (∃ err, get_metrics pf ev mts s e n = .error err)
    ∧ ((∀ m ∈ mts, m ∈ metricTypeValues) →
        get_metrics pf ev mts s e n = .error .tooManyIntervals)
    ∧ get_metrics pf ev mts s e n = get_metrics pf2 ev2 mts s e n := by
  have hday : (n : Int) > totalDays s e := by
    have h0 : (e - s) / 86400 + 1 ≤ 0 := by omega
    simp only [totalDays]
    omega
  by_cases hv : ∀ m ∈ mts, m ∈ metricTypeValues
  · refine ⟨⟨.tooManyIntervals, ?_⟩, fun _ => ?_, ?_⟩ <;>
      simp [get_metrics, hday] <;> exact hv
  · exact ⟨⟨.invalidMetric, by simp [get_metrics, hv]⟩,
      fun hall => absurd hall hv,
      by simp [get_metrics, hv]⟩

/-- Witness for C10: a request from second 86 400 back to second 0 with
`intervals = 1` and a valid metric identifier is rejected with the
too-many-intervals diagnostic. -/
theorem C10_witness :
    get_metrics (fun _ _ => 1)
      (fun _ _ _ => { mean_value := 0, amount_of_observations := 0, z_score := 0,
                      z_score_mean := 0, z_score_std := 0,
                      min_timestamp := none, max_timestamp := none })
      ["SATISFACTION"] 86400 0 1 = .error .tooManyIntervals :=
  (C10_end_before_start_rejected (fun _ _ => 1) (fun _ _ => 1)
      (fun _ _ _ => { mean_value := 0, amount_of_observations := 0, z_score := 0,
                      z_score_mean := 0, z_score_std := 0,
                      min_timestamp := none, max_timestamp := none })
      (fun _ _ _ => { mean_value := 0, amount_of_observations := 0, z_score := 0,
                      z_score_mean := 0, z_score_std := 0,
                      min_timestamp := none, max_timestamp := none })
      ["SATISFACTION"] 86400 0 1 (by norm_num) (by norm_num)).2.1
    (by
      intro m hm
      have : m = "SATISFACTION" := by simpa using hm
      subst this
      decide)

/-! ## Claim C2 -/

/-- C2 (against the spec-modelled registry, since `MetricType.is_inverted_metric`
is absent from the sources and src's own dispatch table cannot be built —
see C1): for each metric where a lower raw value is preferable
(`MEAN_TIME_TO_RECOVER`, `LEAD_TIME_FOR_CHANGES`, `AI_REWORK_RATE`, and
exactly those), the registry returns the calculator's result with its
`z_score` negated — once, after normalization — while every other metric's
result is passed through untouched; and the three calculators themselves
are the plain normalizer applied to their samples, with no negation inside. -/
theorem C2_polarity_inversion_once : ∀ (db : DB) (s e : Int),
    calcMetricSpec db "MEAN_TIME_TO_RECOVER" s e =
      .ok { calculate_mean_time_to_recover db s e with
            z_score := -(calculate_mean_time_to_recover db s e).z_score }
    ∧ calcMetricSpec db "LEAD_TIME_FOR_CHANGES" s e =
      .ok { calculate_lead_time_for_changes db s e with
            z_score := -(calculate_lead_time_for_changes db s e).z_score }
    ∧ calcMetricSpec db "AI_REWORK_RATE" s e =
      .ok { calculate_ai_rework_rate db s e with
            z_score := -(calculate_ai_rework_rate db s e).z_score }
    ∧ (∀ m : MetricType, is_inverted_metric m = false →
        calcMetricSpec db m.value s e = .ok (dispatchSpec m db s e))
    ∧ (∀ m : MetricType, is_inverted_metric m = true ↔
        (m = .MEAN_TIME_TO_RECOVER ∨ m = .LEAD_TIME_FOR_CHANGES ∨ m = .AI_REWORK_RATE))
    ∧ calculate_mean_time_to_recover db s e =
        calculate_z_score_metrics (mttrTimeframeSample db s e) (mttrPopulationSample db) none none
    ∧ calculate_lead_time_for_changes db s e =
        calculate_z_score_metrics (leadTimeframeSample db s e) (leadPopulationSample db) none none
    ∧ calculate_ai_rework_rate db s e =
        calculate_z_score_metrics (reworkIndicators (observationsDfRange db "COMMIT" s e))
          (reworkIndicators (observationsDf db "COMMIT")) none none := by
  intro db s e
  refine ⟨rfl, rfl, rfl, ?_, ?_, rfl, rfl, rfl⟩
  · intro m hm
    cases m <;> first
      | rfl
      | simp [is_inverted_metric] at hm
  · intro m
    cases m <;> simp [is_inverted_metric]

/-- Witness for C2: a non-inverted metric (`SATISFACTION`) on the empty
database over `[0, 86400]` is returned exactly as its calculator produced it. -/
theorem C2_witness :
    calcMetricSpec [] "SATISFACTION" 0 86400 =
      .ok (dispatchSpec .SATISFACTION [] 0 86400) :=
  (C2_polarity_inversion_once [] 0 86400).2.2.2.1 .SATISFACTION rfl

/-! ## Claim C3 -/

/-- C3: for every non-empty timeframe sample, the normalizer returns
`z_score = (mean(timeframe) − mean(population)) / sample_std(population)`
whenever that sample standard deviation (`ddof = 1`, reported in
`z_score_std`) is positive, and `z_score = 0` when the population has fewer
than two elements or zero variance — in the real-number model the result is
therefore always a genuine (finite) real and no division by zero occurs.
Scenario: timeframe `[5]` against population `[1,2,3,4,5]` gives
`mean_value = 5`, `population_mean = 3`, `population_std = √2.5` and
`z_score = 2/√2.5`, which lies between `1.264` and `1.266` (≈ 1.265). -/
theorem C3_z_score_normalizer :
    (∀ (tf pop : List ℝ) (mn mx : Option Int), tf ≠ [] →
      (2 ≤ pop.length → 0 < sampleVariance pop →
        (calculate_z_score_metrics tf pop mn mx).z_score
            = (listMean tf - listMean pop) / Real.sqrt (sampleVariance pop)
        ∧ (calculate_z_score_metrics tf pop mn mx).z_score_std
            = Real.sqrt (sampleVariance pop))
      ∧ ((pop.length < 2 ∨ sampleVariance pop = 0) →
          (calculate_z_score_metrics tf pop mn mx).z_score = 0))
    ∧ calculate_z_score_metrics [5] [1, 2, 3, 4, 5] none none =
        { mean_value := 5, amount_of_observations := 1,
          z_score := 2 / Real.sqrt (5 / 2), z_score_mean := 3,
          z_score_std := Real.sqrt (5 / 2),
          min_timestamp := none, max_timestamp := none }
    ∧ 1.264 < 2 / Real.sqrt (5 / 2) ∧ 2 / Real.sqrt (5 / 2) < 1.266 := by
  have hvar5 : sampleVariance [1, 2, 3, 4, 5] = 5 / 2 := by
    have hm : listMean [1, 2, 3, 4, 5] = 3 := by
      simp [listMean]
      norm_num
    simp [sampleVariance, hm]
    norm_num
  have hs0 : (0 : ℝ) < Real.sqrt (5 / 2) := Real.sqrt_pos.mpr (by norm_num)
  have hs2 : Real.sqrt (5 / 2) ^ 2 = 5 / 2 := Real.sq_sqrt (by norm_num)
  have hsnn : (0 : ℝ) ≤ Real.sqrt (5 / 2) := Real.sqrt_nonneg _
  have hlb : (1.58 : ℝ) < Real.sqrt (5 / 2) := by nlinarith
  have hub : Real.sqrt (5 / 2) < 1.582 := by nlinarith
  refine ⟨?_, ?_, ?_, ?_⟩
  · intro tf pop mn mx htf
    have htf' : tf.isEmpty = false := by
      simpa [List.isEmpty_iff] using htf
    constructor
    · intro hlen hvar
      have hpe : pop.isEmpty = false := by
        rcases pop with _ | _ <;> simp_all
      have hl1 : ¬ pop.length ≤ 1 := by omega
      have hsq : 0 < Real.sqrt (sampleVariance pop) := Real.sqrt_pos.mpr hvar
      constructor <;>
        simp [calculate_z_score_metrics, htf', hpe, hl1, hsq]
    · intro hz
      by_cases hl1 : pop.length ≤ 1
      · simp [calculate_z_score_metrics, htf', hl1]
      · have hv0 : sampleVariance pop = 0 := by
          rcases hz with hz | hz
          · omega
          · exact hz
        simp [calculate_z_score_metrics, htf', hl1, hv0]
  · have hm5 : listMean [(5 : ℝ)] = 5 := by simp [listMean]
    have hm3 : listMean [(1 : ℝ), 2, 3, 4, 5] = 3 := by
      simp [listMean]
      norm_num
    simp [calculate_z_score_metrics, hvar5, hm5, hm3, hs0]
    norm_num
  · rw [lt_div_iff hs0]
    nlinarith
  · rw [div_lt_iff hs0]
    nlinarith

/-- Witness for C3: the general formula applied to the scenario inputs. -/
theorem C3_witness :
    (calculate_z_score_metrics [5] [1, 2, 3, 4, 5] none none).z_score
      = (listMean [5] - listMean [1, 2, 3, 4, 5])
          / Real.sqrt (sampleVariance [1, 2, 3, 4, 5]) :=
  ((C3_z_score_normalizer.1 [5] [1, 2, 3, 4, 5] none none
      (List.cons_ne_nil 5 [])).1 (by norm_num)
    (by
      have hm : listMean [(1 : ℝ), 2, 3, 4, 5] = 3 := by
        simp [listMean]
        norm_num
      simp [sampleVariance, hm]
      norm_num)).1

/-! ## Claim C7 -/

/-- C7: for every metric evaluator, window, interval count and list of
(metric, weight) pairs, each interval's composite score equals the sum over
the pairs of `weight * z_score` of that metric evaluated on the interval's
(second-truncated) bounds — the weights are not constrained to sum to 1 —
and `calculate_cps` behaves the same on the whole window; in particular a
single metric with weight `1.0` yields `cps` exactly equal to that metric's
`z_score`. -/
theorem C7_composite_weighted_sum :
    ∀ (ev : MetricEval) (s e : Int) (n : ℕ) (metrics : List (String × ℝ)),
      ((calculate_cps_with_intervals ev s e n metrics).map (fun iv => iv.cps))
        = ((intervalBounds (s * 1000000) (e * 1000000) n).map (fun b =>
            (metrics.map (fun p =>
              p.2 * (ev p.1 (b.2.1 / 1000000) (b.2.2 / 1000000)).z_score)).sum))
      ∧ (calculate_cps ev s e metrics).cps
          = (metrics.map (fun p => p.2 * (ev p.1 s e).z_score)).sum
      ∧ ∀ m : String, (calculate_cps ev s e [(m, 1)]).cps = (ev m s e).z_score := by
  intro ev s e n metrics
  have hrows : ∀ is ie : Int,
      ((cpsMetricRows ev is ie metrics).map (fun r => r.z_score_weighted))
        = metrics.map (fun p => p.2 * (ev p.1 is ie).z_score) := by
    intro is ie
    simp [cpsMetricRows, List.map_map]
  refine ⟨?_, ?_, ?_⟩
  · simp only [calculate_cps_with_intervals, List.map_map]
    apply List.map_congr_left
    intro b hb
    simp [foldl_add_weighted, hrows]
  · simp [calculate_cps, foldl_add_weighted, hrows s e]
  · intro m
    simp [calculate_cps, foldl_add_weighted, cpsMetricRows]

/-! ## Claim C9 -/

/-- The metric-identifier validation of `get_metrics` passes exactly when
every requested identifier is in the closed set. -/
theorem filterInvalid_isEmpty_iff (mts : List String) :
    (mts.filter (fun mt => decide (mt ∉ metricTypeValues))).isEmpty = true
      ↔ ∀ m ∈ mts, m ∈ metricTypeValues := by
  rw [List.isEmpty_iff, List.filter_eq_nil_iff]
  simp

/-- C9: a `/metrics` request with at least two metrics and `intervals = 1`
(and passing validation) succeeds and carries no correlation output
(`correlations = none`); and conversely, whenever a response carries
correlations, at least two metrics *and* at least two intervals were
requested. -/
theorem C9_single_interval_no_correlations :
    ∀ (pf : ℝ → ℕ → ℝ) (ev : MetricEval) (mts : List String) (s e : Int),
      (2 ≤ mts.length → (∀ m ∈ mts, m ∈ metricTypeValues) → 1 ≤ totalDays s e →
        ∃ resp, get_metrics pf ev mts s e 1 = .ok resp ∧ resp.correlations = none)
      ∧ (∀ (n : ℕ) (resp : MetricsResponseD),
          get_metrics pf ev mts s e n = .ok resp →
          resp.correlations.isSome = true → 2 ≤ mts.length ∧ 2 ≤ n) := by
  intro pf ev mts s e
  constructor
  · intro hlen hv hday
    have hemp := (filterInvalid_isEmpty_iff mts).mpr hv
    have hnd : ¬ (((1 : ℕ) : Int) > totalDays s e) := by push_cast; omega
    simp only [get_metrics]
    rw [if_pos hemp, if_neg hnd]
    refine ⟨_, rfl, ?_⟩
    have hcond : ¬ (1 < mts.length ∧ 1 < 1) := by omega
    simp [hcond]
  · intro n resp hok hsome
    by_cases hv : ∀ m ∈ mts, m ∈ metricTypeValues
    · simp only [get_metrics] at hok
      rw [if_pos ((filterInvalid_isEmpty_iff mts).mpr hv)] at hok
      by_cases hday : (n : Int) > totalDays s e
      · rw [if_pos hday] at hok
        cases hok
      · rw [if_neg hday] at hok
        have hresp := Except.ok.inj hok
        by_cases hcond : 1 < mts.length ∧ 1 < n
        · exact ⟨by omega, by omega⟩
        · rw [← hresp] at hsome
          simp only [if_neg hcond] at hsome
          simp at hsome
    · simp only [get_metrics] at hok
      rw [if_neg (fun h => hv ((filterInvalid_isEmpty_iff mts).mp h))] at hok
      cases hok

/-- Witness for C9: two metrics, one interval, a one-day window: the request
succeeds and the response has no correlations. -/
theorem C9_witness :
    ∃ resp, get_metrics (fun _ _ => 1)
        (fun _ _ _ => { mean_value := 0, amount_of_observations := 0, z_score := 0,
                        z_score_mean := 0, z_score_std := 0,
                        min_timestamp := none, max_timestamp := none })
        ["SATISFACTION", "RETENTION"] 0 86400 1 = .ok resp
      ∧ resp.correlations = none :=
  (C9_single_interval_no_correlations (fun _ _ => 1)
      (fun _ _ _ => { mean_value := 0, amount_of_observations := 0, z_score := 0,
                      z_score_mean := 0, z_score_std := 0,
                      min_timestamp := none, max_timestamp := none })
      ["SATISFACTION", "RETENTION"] 0 86400).1 (by norm_num)
    (by
      intro m hm
      simp only [List.mem_cons, List.not_mem_nil, or_false] at hm
      rcases hm with rfl | rfl <;> decide)
    (by decide)

/-! ## Claim C4 -/

theorem pyDivRound_nonneg {a b : Int} (ha : 0 ≤ a) (hb : 0 < b) :
    0 ≤ pyDivRound a b := by
  have hq : 0 ≤ a / b := Int.ediv_nonneg ha (le_of_lt hb)
  simp only [pyDivRound]
  split <;> omega

/-- C4: for an accepted request (`1 ≤ N ≤ total_days`) partitioned into `N`
intervals, with `step = duration / N` (µs-rounded `timedelta` division):
interval numbers are 1-based and consecutive; interval `i` (0-based) starts
at `start + step·i`; every non-last interval ends at `start + step·(i+1)`
minus one second; the last interval's end is the requested end exactly;
consecutive intervals are separated by exactly the one-second seam; and any
two distinct intervals are non-overlapping (the earlier one ends strictly
before the later one starts). -/
theorem C4_interval_partition (s e : Int) (n : ℕ) (h1 : 1 ≤ n)
    (h2 : (n : Int) ≤ totalDays s e) :
    (intervalBounds (s * 1000000) (e * 1000000) n).length = n
    ∧ (∀ i : ℕ, i < n →
        (intervalBounds (s * 1000000) (e * 1000000) n)[i]?
          = some (i + 1,
              s * 1000000 + pyDivRound (e * 1000000 - s * 1000000) n * (i : Int),
              if i = n - 1 then e * 1000000
              else s * 1000000
                    + pyDivRound (e * 1000000 - s * 1000000) n * ((i : Int) + 1)
                    - 1000000))
    ∧ (∀ (i : ℕ) (a b : ℕ × Int × Int), i + 1 < n →
        (intervalBounds (s * 1000000) (e * 1000000) n)[i]? = some a →
        (intervalBounds (s * 1000000) (e * 1000000) n)[i + 1]? = some b →
        a.2.2 + 1000000 = b.2.1)
    ∧ (∀ (i j : ℕ) (a b : ℕ × Int × Int), i < j → j < n →
        (intervalBounds (s * 1000000) (e * 1000000) n)[i]? = some a →
        (intervalBounds (s * 1000000) (e * 1000000) n)[j]? = some b →
        a.2.2 < b.2.1)
    ∧ (∀ a : ℕ × Int × Int,
        (intervalBounds (s * 1000000) (e * 1000000) n)[n - 1]? = some a →
        a.2.2 = e * 1000000) := by
  have hdur : 0 ≤ e - s := by
    simp only [totalDays] at h2
    omega
  have hdu : 0 ≤ e * 1000000 - s * 1000000 := by nlinarith
  have hn : (0 : Int) < n := by exact_mod_cast h1
  have hstep0 : 0 ≤ pyDivRound (e * 1000000 - s * 1000000) n :=
    pyDivRound_nonneg hdu hn
  have hget : ∀ i : ℕ, i < n →
      (intervalBounds (s * 1000000) (e * 1000000) n)[i]?
        = some (i + 1,
            s * 1000000 + pyDivRound (e * 1000000 - s * 1000000) n * (i : Int),
            if i = n - 1 then e * 1000000
            else s * 1000000
                  + pyDivRound (e * 1000000 - s * 1000000) n * ((i : Int) + 1)
                  - 1000000) := by
    intro i hi
    simp [intervalBounds, List.getElem?_map, List.getElem?_range, hi]
  refine ⟨?_, hget, ?_, ?_, ?_⟩
  · simp [intervalBounds]
  · intro i a b hin ha hb
    have e1 := hget i (by omega)
    have e2 := hget (i + 1) (by omega)
    rw [ha] at e1
    rw [hb] at e2
    injection e1 with e1
    injection e2 with e2
    subst e1
    subst e2
    have hne : i ≠ n - 1 := by omega
    simp only [if_neg hne]
    push_cast
    ring
  · intro i j a b hij hjn ha hb
    have e1 := hget i (by omega)
    have e2 := hget j (by omega)
    rw [ha] at e1
    rw [hb] at e2
    injection e1 with e1
    injection e2 with e2
    subst e1
    subst e2
    have hne : i ≠ n - 1 := by omega
    simp only [if_neg hne]
    have hle : ((i : Int) + 1) ≤ (j : Int) := by
      have : i + 1 ≤ j := hij
      exact_mod_cast this
    have hmul := mul_le_mul_of_nonneg_left hle hstep0
    linarith
  · intro a ha
    have e1 := hget (n - 1) (by omega)
    rw [ha] at e1
    injection e1 with e1
    subst e1
    simp

/-- Witness for C4: two one-day intervals over a two-day window. -/
theorem C4_witness :
    (intervalBounds (0 * 1000000) (172800 * 1000000) 2).length = 2 :=
  (C4_interval_partition 0 172800 2 (by norm_num) (by decide)).1

/-! ## Claim C8 -/

theorem filter_and_split {α : Type} (l : List α) (p q : α → Bool) :
    l.filter (fun a => p a && q a) = (l.filter p).filter q := by
  induction l with
  | nil => rfl
  | cons a t ih =>
    by_cases hp : p a = true <;> by_cases hq : q a = true <;>
      simp [List.filter_cons, hp, hq, ih]

/-- Pre-filtering the failures to the ids referenced by the timeframe fixes
does not change the first failure matched to any timeframe fix: matching
against the prefetched frame equals matching against *all*
`DEPLOYMENT_FAILURE` rows, with no timestamp restriction. -/
theorem matchingFailure_prefilter (db : DB) (s e : Int) (fix : Observation)
    (hmem : fix ∈ mttrFixesTf db s e) :
    matchingFailure (mttrFailuresTf db s e) fix
      = matchingFailure (observationsDf db "DEPLOYMENT_FAILURE") fix := by
  cases hdf : fix.deployment_failure_id with
  | none => simp [matchingFailure, hdf]
  | some fid =>
    have hfid : fid ∈ mttrFailureIds (mttrFixesTf db s e) := by
      unfold mttrFailureIds
      rw [List.mem_dedup]
      exact List.mem_filterMap.mpr ⟨fix, hmem, hdf⟩
    have hfx : (mttrFixesTf db s e).isEmpty = false := by
      have := List.ne_nil_of_mem hmem
      simpa [List.isEmpty_iff]
    have hids : (mttrFailureIds (mttrFixesTf db s e)).isEmpty = false := by
      have := List.ne_nil_of_mem hfid
      simpa [List.isEmpty_iff]
    have hform : mttrFailuresTf db s e
        = db.filter (fun o => decide (o.type = "DEPLOYMENT_FAILURE") &&
            (optMem o.deployment_failure_id (mttrFailureIds (mttrFixesTf db s e))
              || decide (o.id ∈ mttrFailureIds (mttrFixesTf db s e)))) := by
      unfold mttrFailuresTf
      simp [hfx, hids]
    rw [hform]
    simp only [matchingFailure, hdf]
    rw [filter_and_split]
    refine find?_filter_eq_find? _ _ _ ?_
    intro f hq
    rcases Bool.or_eq_true_iff.mp hq with hq | hq
    · have : f.deployment_failure_id = some fid := of_decide_eq_true hq
      simp [optMem, this, hfid]
    · have : f.id = fid := of_decide_eq_true hq
      simp [optMem, this, hfid]

/-- The `isEmpty` guards of `calculate_lead_times` are redundant: the
function is a per-commit `filterMap` over the deployment lookup. -/
theorem leadTimes_eq_filterMap (commits deps : DB) :
    leadTimes commits deps = commits.filterMap (fun c =>
      c.deployment_id.bind (fun did =>
        (deps.find? (fun d => decide (d.id = did))).map
          (fun d => ((d.timestamp - c.timestamp : Int) : ℝ) / 60))) := by
  unfold leadTimes
  by_cases hc : commits.isEmpty
  · have : commits = [] := by simpa [List.isEmpty_iff] using hc
    simp [this]
  · have hc' : commits.isEmpty = false := by simpa using hc
    rw [hc']
    simp only [Bool.false_eq_true, if_false]
    by_cases hd : deps.isEmpty
    · have hdeps : deps = [] := by simpa [List.isEmpty_iff] using hd
      subst hdeps
      simp only [List.isEmpty_nil, if_true]
      symm
      rw [List.filterMap_eq_nil_iff]
      intro c hcm
      cases c.deployment_id <;> simp [List.find?]
    · have hd' : deps.isEmpty = false := by simpa using hd
      rw [hd']
      simp

/-- C8: for the paired-event duration metrics the timeframe sample is
governed by the *later* event of each pair.  Mean-time-to-recover: one
entry `(fix_timestamp − failure_timestamp)/60` minutes for every
`DEPLOYMENT_FAILURE_FIX` whose timestamp lies in `[start, end]` and whose
linked failure is located — the failure is searched among *all*
`DEPLOYMENT_FAILURE` rows with no timestamp restriction.  Lead-time-for-
changes: one entry `(deployment_timestamp − commit_timestamp)/60` minutes
for every `COMMIT` (of any timestamp) whose `deployment_id` resolves to a
deployment with timestamp in `[start, end]`.  Pairs whose later event is
outside the window contribute nothing — they never enter the filtered base
list. -/
theorem C8_paired_duration_timeframe_anchor : ∀ (db : DB) (s e : Int),
    mttrTimeframeSample db s e
      = (observationsDfRange db "DEPLOYMENT_FAILURE_FIX" s e).filterMap
          (fun fix => (matchingFailure (observationsDf db "DEPLOYMENT_FAILURE") fix).map
            (fun f => ((fix.timestamp - f.timestamp : Int) : ℝ) / 60))
    ∧ leadTimeframeSample db s e
      = (observationsDf db "COMMIT").filterMap
          (fun c => c.deployment_id.bind (fun did =>
            ((observationsDfRange db "DEPLOYMENT" s e).find?
                (fun d => decide (d.id = did))).map
              (fun d => ((d.timestamp - c.timestamp : Int) : ℝ) / 60))) := by
  intro db s e
  constructor
  · show recoveryTimes (mttrFailuresTf db s e) (mttrFixesTf db s e) = _
    unfold recoveryTimes
    exact filterMap_congr_mem (fun fix hmem => by
      rw [matchingFailure_prefilter db s e fix hmem])
  · show leadTimes (leadCommitsTf db s e) (leadDeploymentsTf db s e) = _
    rw [leadTimes_eq_filterMap]
    by_cases hd : (observationsDfRange db "DEPLOYMENT" s e).isEmpty
    · have hdeps : observationsDfRange db "DEPLOYMENT" s e = [] := by
        simpa [List.isEmpty_iff] using hd
      have hcomm : leadCommitsTf db s e = [] := by
        unfold leadCommitsTf leadDeploymentsTf
        simp [hd]
      rw [hcomm]
      simp only [List.filterMap_nil]
      symm
      rw [List.filterMap_eq_nil_iff]
      intro c hcm
      rw [hdeps]
      cases c.deployment_id <;> simp [List.find?]
    · have hd' : (observationsDfRange db "DEPLOYMENT" s e).isEmpty = false := by
        simpa using hd
      have hform : leadCommitsTf db s e
          = db.filter (fun o => decide (o.type = "COMMIT") &&
              optMem o.deployment_id
                ((observationsDfRange db "DEPLOYMENT" s e).map (fun d => d.id))) := by
        unfold leadCommitsTf leadDeploymentsTf
        simp [hd']
      rw [hform, filter_and_split]
      show _ = (db.filter (fun o => decide (o.type = "COMMIT"))).filterMap _
      refine filterMap_filter_of_none ?_
      intro c hcm hp
      cases hdid : c.deployment_id with
      | none => simp [hdid]
      | some did =>
        have hnot : did ∉ (observationsDfRange db "DEPLOYMENT" s e).map
            (fun d => d.id) := by
          simpa [optMem, hdid] using hp
        have hfind : (observationsDfRange db "DEPLOYMENT" s e).find?
            (fun d => decide (d.id = did)) = none := by
          rw [List.find?_eq_none]
          intro d hdm
          simp only [decide_eq_true_eq]
          intro heq
          exact hnot (heq ▸ List.mem_map_of_mem (fun d => d.id) hdm)
        simp [hdid, hfind]
        intro x hx heq
        exact hnot (heq ▸ List.mem_map_of_mem (fun d => d.id) hx)
